import Mathlib

/-!
Verification of the depth-aware WebAR rendering pipeline
(repository Ramith-D-Rodrigo/Medium).

The development shallowly embeds:
* the depth-visualization fragment shader (`custom.frag.glsl`, shipped as
  the first section of `src/unnamed/part_000`): `depthGetMeters`,
  `normalizeFragCoords`, `mapRange`, and the shader `main`;
* the per-frame hit-test / placement logic and the `select` handler of
  `src/webar-depth-occlusion/src/index.ts` (and its twin in
  `src/unnamed/part_001`), as a step function on an explicit state.

GLSL float arithmetic is embedded over ℚ; 8-bit texture channels are ℕ
bytes normalized by division by 255, exactly as a `LUMINANCE_ALPHA` /
`UNSIGNED_BYTE` texture is sampled.
-/

namespace Medium

/-- A 2-component vector (GLSL `vec2`), over exact rationals. -/
structure Vec2 where
  x : ℚ
  y : ℚ
  deriving Repr, DecidableEq

/-- A 3-component vector (GLSL / gl-matrix `vec3`). -/
structure Vec3 where
  x : ℚ
  y : ℚ
  z : ℚ
  deriving Repr, DecidableEq

/-- A 4-component vector (GLSL `vec4`). -/
structure Vec4 where
  x : ℚ
  y : ℚ
  z : ℚ
  w : ℚ
  deriving Repr, DecidableEq

/-- A 4×4 matrix (GLSL `mat4`), row i / column j. -/
def Mat4 : Type := Fin 4 → Fin 4 → ℚ

/-- `mat4 * vec4` as in GLSL (`depthUVTransform * vec4(...)`). -/
def mat4MulVec (m : Mat4) (v : Vec4) : Vec4 :=
  let c : Fin 4 → ℚ := fun j => match j with
    | 0 => v.x | 1 => v.y | 2 => v.z | 3 => v.w
  let row : Fin 4 → ℚ := fun i =>
    m i 0 * c 0 + m i 1 * c 1 + m i 2 * c 2 + m i 3 * c 3
  ⟨row 0, row 1, row 2, row 3⟩

/-- The identity `mat4`. -/
def mat4Id : Mat4 := fun i j => if i = j then 1 else 0

/-- A depth texture as sampled by the shader: a function from a UV
coordinate to the two normalized channels `(r, a)` the GLSL expression
`texture(depth_texture, depth_uv).ra` yields.  Each channel of a
`LUMINANCE_ALPHA`/`UNSIGNED_BYTE` texture is a byte divided by 255, so
both components lie in `[0,1]`. -/
def DepthTexture : Type := Vec2 → Vec2

/-- The texture whose every texel holds the byte pair
`(low, high)` in its (luminance, alpha) channels; sampling normalizes each
byte by 255. -/
def byteTexture (low high : ℕ) : DepthTexture :=
  fun _ => ⟨(low : ℚ) / 255, (high : ℚ) / 255⟩

/-- GLSL `clamp(x, lo, hi) = min(max(x, lo), hi)`. -/
def glslClamp (x lo hi : ℚ) : ℚ := min (max x lo) hi

/-- Shader constant `kMaxDepth = 8.0` (max depth in meters). -/
def kMaxDepth : ℚ := 8

/-- `custom.frag.glsl`, `depthGetMeters`: sample the packed channels and
take `dot(packed, vec2(255.0, 256.0 * 255.0)) * depthScale`. -/
def depthGetMeters (depth_texture : DepthTexture) (depth_uv : Vec2)
    (depthScale : ℚ) : ℚ :=
  let packedDepthAndVisibility := depth_texture depth_uv
  (packedDepthAndVisibility.x * 255 +
    packedDepthAndVisibility.y * (256 * 255)) * depthScale

/-- `custom.frag.glsl`, `normalizeFragCoords`: fragment coordinates to
`vec2(fragCoords.x / resolution.x, 1.0 - fragCoords.y / resolution.y)`. -/
def normalizeFragCoords (resolution fragCoords : Vec2) : Vec2 :=
  ⟨fragCoords.x / resolution.x, 1 - fragCoords.y / resolution.y⟩

/-- `custom.frag.glsl`, `mapRange`: affine map of `inputValue` from
`[inputMin, inputMax]` onto `[outputMin, outputMax]`. -/
def mapRange (inputValue inputMin inputMax outputMin outputMax : ℚ) : ℚ :=
  outputMin + (inputValue - inputMin) * (outputMax - outputMin) /
    (inputMax - inputMin)

/-- The depth-to-grayscale mapping on the shader's `main` path:
`mapRange(clamp(depth, 0.0, kMaxDepth), 0.0, kMaxDepth, 0.0, 1.0)`. -/
def depthToGrayscale (depth : ℚ) : ℚ :=
  mapRange (glslClamp depth 0 kMaxDepth) 0 kMaxDepth 0 1

/-- `custom.frag.glsl`, `main`: transform the fragment coordinate to a
depth-texture UV, decode meters, map to grayscale, output
`vec4(vec3(mappedValue), 1.0)`. -/
def shaderMain (depthTexture : DepthTexture) (depthUVTransform : Mat4)
    (depthScale : ℚ) (resolution : Vec2) (fragCoord : Vec2) : Vec4 :=
  let n := normalizeFragCoords resolution fragCoord
  let t := mat4MulVec depthUVTransform ⟨n.x, n.y, 0, 1⟩
  let depthTexCoord : Vec2 := ⟨t.x, t.y⟩
  let depth := depthGetMeters depthTexture depthTexCoord depthScale
  let mappedValue := depthToGrayscale depth
  ⟨mappedValue, mappedValue, mappedValue, 1⟩

/-- A quaternion (gl-matrix `quat`), components `(x, y, z, w)`. -/
structure Quat where
  x : ℚ
  y : ℚ
  z : ℚ
  w : ℚ
  deriving Repr, DecidableEq

/-- The identity quaternion, the rotation a gl-matrix Euler angle triple
`(0, 0, 0)` produces. -/
def quatId : Quat := ⟨0, 0, 0, 1⟩

/-- A rigid pose: position and orientation, as carried by an
`XRRigidTransform` (`transform.position`, `transform.orientation`). -/
structure Pose where
  position : Vec3
  orientation : Quat
  deriving Repr, DecidableEq

/-- Modelled from the spec: a `GLSceneObject` of the `webgl-framework`
module (its source is not under `src/`); the spec's data model gives it a
local transform of position + rotation + scale, recomputed into a model
matrix deterministically, with `getPosition`/`getRotation` reading and
`setPosition`/`setRotation`/`rotate` writing those components, and pose
reads returning value copies. -/
structure SceneObject where
  position : Vec3
  rotation : Quat
  scale : Vec3
  deriving Repr, DecidableEq

/-- Modelled from the spec: the framework call
`sceneObject.rotate(vec3.fromValues(-90, 0, 0))` composes a fixed Euler
rotation onto the object's stored rotation.  The composition law lives in
`webgl-framework`/gl-matrix (not under `src/`), so it is a parameter: any
function from the Euler triple and the current rotation to the new
rotation. -/
def RotateFn : Type := Vec3 → Quat → Quat

/-- The mutable state the placement logic of
`src/webar-depth-occlusion/src/index.ts` touches: the reticle scene
object (the placement indicator) and the list of scene objects the
renderer's scene holds, in insertion order. -/
structure ARState where
  reticle : SceneObject
  sceneObjects : List SceneObject
  deriving Repr, DecidableEq

/-- The state after `main`: the reticle is created at position `(0,0,0)`,
Euler rotation `(0,0,0)` (the identity quaternion) and scale `(1,1,1)`,
and added to the scene; no other object exists and no hit has been
observed. -/
def initialState : ARState :=
  { reticle := ⟨⟨0, 0, 0⟩, quatId, ⟨1, 1, 1⟩⟩
    sceneObjects := [⟨⟨0, 0, 0⟩, quatId, ⟨1, 1, 1⟩⟩] }

/-- One frame's hit-test input: `frame.getHitTestResults` yields a list
of results, and each result's `getPose(unboundedRefSpace)` may yield a
pose or `null`. -/
abbrev HitResults : Type := List (Option Pose)

/-- The hit-test block of `onDrawFrame`
(`src/webar-depth-occlusion/src/index.ts:182-210`): when a hit-test
source exists and the result list is non-empty, the first result's pose
is read; when that pose resolves, the reticle's position and rotation are
overwritten from its transform.  Returns the new state together with the
list of pose writes performed on the reticle (each
`setPosition`+`setRotation` pair is one write). -/
def hitTestUpdate (hasSource : Bool) (hitResults : HitResults)
    (s : ARState) : ARState × List Pose :=
  if hasSource then
    match hitResults with
    | [] => (s, [])
    | firstResult :: _ =>
      match firstResult with
      | none => (s, [])
      | some hitResultPose =>
        ({ s with reticle :=
            { s.reticle with
              position := hitResultPose.position
              rotation := hitResultPose.orientation } },
          [hitResultPose])
  else (s, [])

/-- `onSelect` (`src/webar-depth-occlusion/src/index.ts:155-166`): build
a scene object from the reticle's current position and rotation with
scale `(0.5, 0.5, 0.5)`, rotate it by Euler `(-90, 0, 0)`, and append it
to the scene.  There is no guard: the handler runs on every select event
once it is registered. -/
def onSelect (rotate : RotateFn) (s : ARState) : ARState :=
  let sceneObject : SceneObject :=
    { position := s.reticle.position
      rotation := s.reticle.rotation
      scale := ⟨1/2, 1/2, 1/2⟩ }
  let sceneObject :=
    { sceneObject with rotation := rotate ⟨-90, 0, 0⟩ sceneObject.rotation }
  { s with sceneObjects := s.sceneObjects ++ [sceneObject] }

/-- `startARSession` registers `onSelect` exactly when the platform
exposes `requestHitTestSource`
(`src/webar-depth-occlusion/src/index.ts:138-144`); the registration
depends only on capability, never on whether a hit was ever observed. -/
def selectHandlerRegistered (platformHasHitTestAPI : Bool) : Bool :=
  platformHasHitTestAPI

/-- Dispatch of one select event on the session: if the handler was
registered it runs `onSelect`, otherwise the state is untouched. -/
def dispatchSelect (platformHasHitTestAPI : Bool) (rotate : RotateFn)
    (s : ARState) : ARState :=
  if selectHandlerRegistered platformHasHitTestAPI then onSelect rotate s
  else s

/-- The observable actions `onDrawFrame` performs, in order. -/
inductive FrameEffect where
  | requestAnimationFrame
  | clear
  | uploadDepthTexture
  | drawCall
  deriving Repr, DecidableEq

/-- Per-view frame input: whether `frame.getDepthInformation(view)`
yields a depth snapshot for that view. -/
structure ViewInput where
  hasDepthInfo : Bool
  deriving Repr, DecidableEq

/-- One frame's input from the host platform: the viewer pose (with its
view list) or `null`, and the hit-test results. -/
structure FrameInput where
  viewerPose : Option (List ViewInput)
  hitResults : HitResults
  deriving Repr, DecidableEq

/-- The per-view body of `onDrawFrame`'s view loop: optionally upload the
depth texture and set its uniforms, then issue the draw calls for the
scene objects. -/
def renderView (numSceneObjects : ℕ) (v : ViewInput) : List FrameEffect :=
  (if v.hasDepthInfo then [FrameEffect.uploadDepthTexture] else []) ++
    List.replicate numSceneObjects FrameEffect.drawCall

/-- `onDrawFrame` (`src/webar-depth-occlusion/src/index.ts:168-291`):
request the next animation frame first, then get the viewer pose; when
the pose is `null` nothing else happens; otherwise run the hit-test
update, clear the framebuffer, and render every view.  Returns the new
state and the ordered effect trace. -/
def onDrawFrame (hasSource : Bool) (input : FrameInput)
    (s : ARState) : ARState × List FrameEffect :=
  let armed := [FrameEffect.requestAnimationFrame]
  match input.viewerPose with
  | none => (s, armed)
  | some views =>
    let su := (hitTestUpdate hasSource input.hitResults s).1
    let renderEffects :=
      [FrameEffect.clear] ++
        (views.map (renderView su.sceneObjects.length)).flatten
    (su, armed ++ renderEffects)

/-! ## Helper lemmas -/

/-- Decoding a texel holding the byte pair `(low, high)`: sampling
normalizes each byte by 255, and the weighted sum restores
`(low + high·256) · scale`. -/
theorem depthGetMeters_byteTexture (low high : ℕ) (scale : ℚ) (uv : Vec2) :
    depthGetMeters (byteTexture low high) uv scale =
      ((low : ℚ) + (high : ℚ) * 256) * scale := by
  show ((low : ℚ) / 255 * 255 + (high : ℚ) / 255 * (256 * 255)) * scale = _
  ring

/-! ## Claims -/

/-- C1: the decoder yields `(low + high*256) * rawValueToMeters` from the
byte pair, with `(0,0) ↦ 0` and `(255,0) ↦ 255*scale`; but the byte pair
`(low=0, high=1)` decodes to `256*scale`, not to `256*255*scale` as
claimed (that value is produced by the byte pair `(0, 255)`, i.e. a
normalized high channel of `1.0`). -/
theorem C1_depth_decode (low high : ℕ) (scale : ℚ) (uv : Vec2) :
    depthGetMeters (byteTexture low high) uv scale =
        ((low : ℚ) + (high : ℚ) * 256) * scale ∧
    depthGetMeters (byteTexture 0 0) uv scale = 0 ∧
    depthGetMeters (byteTexture 255 0) uv scale = 255 * scale ∧
    depthGetMeters (byteTexture 0 1) uv scale = 256 * scale ∧
    depthGetMeters (byteTexture 0 255) uv scale = 256 * 255 * scale := by
  refine ⟨depthGetMeters_byteTexture low high scale uv, ?_, ?_, ?_, ?_⟩ <;>
    rw [depthGetMeters_byteTexture] <;> push_cast <;> ring

/-- C1 counterexample: the channel pair `(low=0, high=1)` decodes to
`256` at scale `1`, not to `256*255 = 65280` as the claim states. -/
theorem C1_counterexample :
    depthGetMeters (byteTexture 0 1) ⟨0, 0⟩ 1 = 256 ∧
      (256 : ℚ) ≠ 256 * 255 * 1 := by
  constructor
  · rw [depthGetMeters_byteTexture]; norm_num
  · norm_num

/-- C2: `normalizeFragCoords` maps a bottom-left-origin pixel coordinate
to `(x/width, 1 - y/height)`; pixel `(0,0) ↦ (0,1)`,
`(width,0) ↦ (1,1)`, `(0,height) ↦ (0,0)`, and every in-range coordinate
lands in `[0,1]²`, boundaries mapping exactly to `0` or `1`. -/
theorem C2_normalize_frag_coords (w h x y : ℚ) (hw : 0 < w) (hh : 0 < h)
    (hx0 : 0 ≤ x) (hxw : x ≤ w) (hy0 : 0 ≤ y) (hyh : y ≤ h) :
    normalizeFragCoords ⟨w, h⟩ ⟨x, y⟩ = ⟨x / w, 1 - y / h⟩ ∧
    normalizeFragCoords ⟨w, h⟩ ⟨0, 0⟩ = ⟨0, 1⟩ ∧
    normalizeFragCoords ⟨w, h⟩ ⟨w, 0⟩ = ⟨1, 1⟩ ∧
    normalizeFragCoords ⟨w, h⟩ ⟨0, h⟩ = ⟨0, 0⟩ ∧
    (0 ≤ (normalizeFragCoords ⟨w, h⟩ ⟨x, y⟩).x ∧
      (normalizeFragCoords ⟨w, h⟩ ⟨x, y⟩).x ≤ 1) ∧
    (0 ≤ (normalizeFragCoords ⟨w, h⟩ ⟨x, y⟩).y ∧
      (normalizeFragCoords ⟨w, h⟩ ⟨x, y⟩).y ≤ 1) := by
  have hwne : w ≠ 0 := ne_of_gt hw
  have hhne : h ≠ 0 := ne_of_gt hh
  refine ⟨rfl, ?_, ?_, ?_, ⟨?_, ?_⟩, ⟨?_, ?_⟩⟩
  · simp [normalizeFragCoords]
  · simp [normalizeFragCoords, div_self hwne]
  · simp [normalizeFragCoords, div_self hhne]
  · exact div_nonneg hx0 hw.le
  · exact (div_le_one hw).mpr hxw
  · have : y / h ≤ 1 := (div_le_one hh).mpr hyh
    simp only [normalizeFragCoords]
    linarith
  · have : 0 ≤ y / h := div_nonneg hy0 hh.le
    simp only [normalizeFragCoords]
    linarith

/-- C2 witness at `width = 4`, `height = 3`, pixel `(2, 1)`. -/
theorem C2_normalize_frag_coords_witness :
    normalizeFragCoords ⟨4, 3⟩ ⟨2, 1⟩ = ⟨2 / 4, 1 - 1 / 3⟩ ∧
      normalizeFragCoords ⟨4, 3⟩ ⟨0, 0⟩ = ⟨0, 1⟩ :=
  ⟨(C2_normalize_frag_coords 4 3 2 1 (by norm_num) (by norm_num)
      (by norm_num) (by norm_num) (by norm_num) (by norm_num)).1,
    (C2_normalize_frag_coords 4 3 2 1 (by norm_num) (by norm_num)
      (by norm_num) (by norm_num) (by norm_num) (by norm_num)).2.1⟩

/-- C3: the depth-to-grayscale mapping stays in `[0,1]`, sends inputs
above 8 m to exactly `1`, inputs below 0 to exactly `0`, equals `d/8` on
`[0,8]`, and is injective there. -/
theorem C3_grayscale_clamp (d e : ℚ) :
    (0 ≤ depthToGrayscale d ∧ depthToGrayscale d ≤ 1) ∧
    (8 < d → depthToGrayscale d = 1) ∧
    (d < 0 → depthToGrayscale d = 0) ∧
    (0 ≤ d → d ≤ 8 → depthToGrayscale d = d / 8) ∧
    (0 ≤ d → d ≤ 8 → 0 ≤ e → e ≤ 8 →
      depthToGrayscale d = depthToGrayscale e → d = e) := by
  have hval : ∀ z : ℚ, depthToGrayscale z = min (max z 0) 8 / 8 := by
    intro z
    show 0 + (min (max z 0) 8 - 0) * (1 - 0) / (8 - 0) = _
    ring
  have hcl : ∀ z : ℚ, 0 ≤ z → z ≤ 8 → min (max z 0) 8 = z := by
    intro z h0 h8
    rw [max_eq_left h0, min_eq_left h8]
  refine ⟨⟨?_, ?_⟩, ?_, ?_, ?_, ?_⟩
  · rw [hval]
    have : (0 : ℚ) ≤ min (max d 0) 8 := le_min (le_max_right d 0) (by norm_num)
    positivity
  · rw [hval]
    have : min (max d 0) 8 ≤ 8 := min_le_right _ _
    linarith
  · intro hd
    rw [hval, min_eq_right (by linarith [le_max_left d (0 : ℚ)] : (8 : ℚ) ≤ max d 0)]
    norm_num
  · intro hd
    rw [hval, max_eq_right hd.le, min_eq_left (by norm_num)]
    norm_num
  · intro h0 h8
    rw [hval, hcl d h0 h8]
  · intro hd0 hd8 he0 he8 heq
    rw [hval, hval, hcl d hd0 hd8, hcl e he0 he8, div_left_inj' (by norm_num)] at heq
    exact heq

/-- C3 witness: grayscale of 9 m is 1, of −1 m is 0, of 2 m is `2/8`. -/
theorem C3_grayscale_clamp_witness :
    depthToGrayscale 9 = 1 ∧ depthToGrayscale (-1) = 0 ∧
      depthToGrayscale 2 = 2 / 8 :=
  ⟨(C3_grayscale_clamp 9 0).2.1 (by norm_num),
    (C3_grayscale_clamp (-1) 0).2.2.1 (by norm_num),
    (C3_grayscale_clamp 2 0).2.2.2.1 (by norm_num) (by norm_num)⟩

/-- C4: on a frame whose hit-test query returns at least one result whose
pose resolves, the reticle's pose is written exactly once, with the first
result's position and orientation; on a frame with zero results the state
is returned untouched (no reset to identity). -/
theorem C4_tracker_update (s : ARState) (p : Pose) (rest : HitResults) :
    (hitTestUpdate true (some p :: rest) s).2 = [p] ∧
    (hitTestUpdate true (some p :: rest) s).1.reticle.position = p.position ∧
    (hitTestUpdate true (some p :: rest) s).1.reticle.rotation =
      p.orientation ∧
    hitTestUpdate true [] s = (s, []) :=
  ⟨rfl, rfl, rfl, rfl⟩

/-- C5: two select events with the tracker pose unchanged in between
append two separate scene-object entries carrying the same pose — the
reticle's position copied and the reticle's rotation post-rotated by the
fixed Euler `(-90, 0, 0)` — and the reticle itself is unaffected. -/
theorem C5_double_commit (rotate : RotateFn) (s : ARState) :
    (onSelect rotate (onSelect rotate s)).reticle = s.reticle ∧
    ∃ o : SceneObject,
      (onSelect rotate (onSelect rotate s)).sceneObjects =
          s.sceneObjects ++ [o, o] ∧
        o.position = s.reticle.position ∧
        o.rotation = rotate ⟨-90, 0, 0⟩ s.reticle.rotation := by
  refine ⟨rfl, ⟨⟨s.reticle.position,
    rotate ⟨-90, 0, 0⟩ s.reticle.rotation, ⟨1/2, 1/2, 1/2⟩⟩, ?_, rfl, rfl⟩⟩
  simp [onSelect]

/-- C6: the select handler has no guard against never-observed hits — a
select dispatched in the initial state (before any hit-test result was
ever seen) creates a new scene object from the reticle's initial,
never-hit pose (position `(0,0,0)`, identity rotation before the fixed
Euler adjustment). -/
theorem C6_no_commit_guard (rotate : RotateFn) :
    selectHandlerRegistered true = true ∧
    (dispatchSelect true rotate initialState).sceneObjects =
      initialState.sceneObjects ++
        [⟨⟨0, 0, 0⟩, rotate ⟨-90, 0, 0⟩ quatId, ⟨1/2, 1/2, 1/2⟩⟩] :=
  ⟨rfl, rfl⟩

/-- C7: the frame driver emits the re-arm request as its first action,
and on a frame without a viewer pose the trace is the re-arm alone — no
clear, no depth upload, no draw — and the state is untouched. -/
theorem C7_driver_rearm_and_skip (hasSource : Bool) (input : FrameInput)
    (s : ARState) :
    (onDrawFrame hasSource input s).2.head? =
        some FrameEffect.requestAnimationFrame ∧
    (input.viewerPose = none →
      onDrawFrame hasSource input s = (s, [FrameEffect.requestAnimationFrame])) := by
  constructor
  · cases h : input.viewerPose <;> simp [onDrawFrame, h]
  · intro h
    simp [onDrawFrame, h]

/-- C7 witness: a poseless frame with pending hit results yields only the
re-arm effect and leaves the state alone. -/
theorem C7_driver_rearm_and_skip_witness :
    onDrawFrame true ⟨none, [some ⟨⟨1, 2, 3⟩, quatId⟩]⟩ initialState =
      (initialState, [FrameEffect.requestAnimationFrame]) :=
  (C7_driver_rearm_and_skip true ⟨none, [some ⟨⟨1, 2, 3⟩, quatId⟩]⟩
    initialState).2 rfl

/-- C8: if every sample of the depth texture decodes to 2 meters at the
frame's scale factor, every fragment the visualization shader produces is
the grayscale `2/8 = 1/4` in all three color channels with alpha 1,
whatever the UV transform, resolution and fragment coordinate. -/
theorem C8_uniform_depth_grayscale (tex : DepthTexture) (m : Mat4)
    (scale : ℚ) (resolution fragCoord : Vec2)
    (hdecode : ∀ uv, depthGetMeters tex uv scale = 2) :
    shaderMain tex m scale resolution fragCoord = ⟨2/8, 2/8, 2/8, 1⟩ := by
  have hgray : depthToGrayscale 2 = 2/8 := by
    show 0 + (min (max 2 0) 8 - 0) * (1 - 0) / ((8 : ℚ) - 0) = 2/8
    norm_num
  simp only [shaderMain, hdecode, hgray]

/-- C8 witness: the byte pair `(200, 0)` at scale `1/100` decodes to 2 m
everywhere, and the shader then outputs `(1/4, 1/4, 1/4, 1)`. -/
theorem C8_uniform_depth_grayscale_witness :
    (∀ uv, depthGetMeters (byteTexture 200 0) uv (1/100) = 2) ∧
      shaderMain (byteTexture 200 0) mat4Id (1/100) ⟨4, 3⟩ ⟨1, 1⟩ =
        ⟨2/8, 2/8, 2/8, 1⟩ := by
  have h : ∀ uv, depthGetMeters (byteTexture 200 0) uv (1/100) = 2 := by
    intro uv
    rw [depthGetMeters_byteTexture]
    norm_num
  exact ⟨h, C8_uniform_depth_grayscale (byteTexture 200 0) mat4Id (1/100)
    ⟨4, 3⟩ ⟨1, 1⟩ h⟩

/-- C9: the decoder is monotone in the combined 16-bit value — for a
non-negative scale, `low₁ + high₁·256 ≤ low₂ + high₂·256` implies the
first pair decodes to at most the second pair's depth. -/
theorem C9_decode_monotone (low1 high1 low2 high2 : ℕ) (scale : ℚ)
    (uv1 uv2 : Vec2) (hscale : 0 ≤ scale)
    (hle : low1 + high1 * 256 ≤ low2 + high2 * 256) :
    depthGetMeters (byteTexture low1 high1) uv1 scale ≤
      depthGetMeters (byteTexture low2 high2) uv2 scale := by
  rw [depthGetMeters_byteTexture, depthGetMeters_byteTexture]
  have hle' : (low1 : ℚ) + (high1 : ℚ) * 256 ≤ (low2 : ℚ) + (high2 : ℚ) * 256 := by
    exact_mod_cast hle
  exact mul_le_mul_of_nonneg_right hle' hscale

/-- C9 witness: `(1, 0)` vs `(0, 1)` at scale 2: `1 ≤ 256` and `2 ≤ 512`. -/
theorem C9_decode_monotone_witness :
    (0 : ℚ) ≤ 2 ∧ 1 + 0 * 256 ≤ 0 + 1 * 256 ∧
      depthGetMeters (byteTexture 1 0) ⟨0, 0⟩ 2 ≤
        depthGetMeters (byteTexture 0 1) ⟨0, 0⟩ 2 :=
  ⟨by norm_num, by norm_num,
    C9_decode_monotone 1 0 0 1 2 ⟨0, 0⟩ ⟨0, 0⟩ (by norm_num) (by norm_num)⟩

/-- C10: on a frame whose hit-test result list is non-empty but whose
first result's pose query returns `null`, the state is returned untouched
and no pose write happens — the same preserve-last-known behavior as the
zero-results case. -/
theorem C10_null_pose_preserves (s : ARState) (rest : HitResults) :
    hitTestUpdate true (none :: rest) s = (s, []) :=
  rfl

end Medium
